import Mathlib

/-!
Verification of the Bravio voice-assistant interaction logic.

This file gives a shallow embedding of the interaction state machine, the
command dispatcher and the speech-recognition event handlers implemented in
src/index.tsx, and proves the behavioural properties claimed for them.
Browser collaborators (the remote chat session, the speech engines) are
modelled as an explicit environment; DOM rendering is out of scope.
-/

namespace Bravio

/-- The operational states of the assistant (type AppState in the source). -/
inductive AppState
  | IDLE
  | LISTENING
  | THINKING
  | SPEAKING
deriving DecidableEq, Repr

/-- Author tag of a transcript entry. -/
inductive Author
  | user
  | assistant
deriving DecidableEq, Repr

/-- A single entry of the conversation history (type TranscriptItem). -/
structure TranscriptItem where
  author : Author
  text : String
deriving DecidableEq, Repr

/-- The mutable component state relevant to the interaction logic:
appState, statusText, transcript, criticalError and textInput. -/
structure ModelState where
  appState : AppState
  statusText : String
  transcript : List TranscriptItem
  criticalError : Option String
  textInput : String
deriving DecidableEq, Repr

/-- Observable effects emitted towards the browser collaborators. -/
inductive Effect
  | playStartSound
  | startRecognition
  | stopRecognition
  | synthCancel
  | speak (text : String)
deriving DecidableEq, Repr

/-!
The source manipulates JavaScript strings with the builtins trim,
toLowerCase, startsWith, substring and length. We embed those builtins as
structurally recursive functions over the character list of a string (over
the ASCII data involved they agree with the UTF-16 semantics of the
originals), so that every definition evaluates inside the kernel.
-/

/-- The JavaScript String.prototype.trim builtin: strip leading and
trailing whitespace. -/
def jsTrim (s : String) : String :=
  ⟨((s.data.dropWhile Char.isWhitespace).reverse.dropWhile
      Char.isWhitespace).reverse⟩

/-- The JavaScript String.prototype.toLowerCase builtin. -/
def jsToLower (s : String) : String :=
  ⟨s.data.map Char.toLower⟩

/-- The JavaScript String.prototype.startsWith builtin. -/
def jsStartsWith (s pre : String) : Bool :=
  pre.data.isPrefixOf s.data

/-- The JavaScript String.prototype.substring(n) builtin: the characters
from index n on. -/
def jsDrop (s : String) (n : Nat) : String :=
  ⟨s.data.drop n⟩

/-- The JavaScript String.prototype.length builtin. -/
def jsLength (s : String) : Nat :=
  s.data.length

def ASSISTANT_NAME : String := "Bravio"

/-- The wake word, the lowercased assistant name. -/
def wakeWord : String := jsToLower ASSISTANT_NAME

def idleStatusText : String := "Click the orb or type a command..."

/-- The functional transcript update used by setTranscript in the source:
prev maps to prev ++ [item]. -/
def appendTranscript (item : TranscriptItem) (ts : List TranscriptItem) :
    List TranscriptItem :=
  ts ++ [item]

/-- speakAndDisplay: append the entry, enter SPEAKING, cancel any in-flight
utterance and speak the text. -/
def speakAndDisplay (text : String) (author : Author) (s : ModelState) :
    ModelState × List Effect :=
  ({ s with
      transcript := appendTranscript ⟨author, text⟩ s.transcript,
      appState := AppState.SPEAKING,
      statusText := "Speaking..." },
   [Effect.synthCancel, Effect.speak text])

/-- The utterance onend callback registered by speakAndDisplay: return to
Idle and restore the idle status text. -/
def utteranceOnEnd (s : ModelState) : ModelState :=
  { s with appState := AppState.IDLE, statusText := idleStatusText }

/-- Outcome of the (single) remote sendMessage call: resolved with an
optional text, or rejected. -/
inductive RemoteOutcome
  | resolved (text : Option String)
  | rejected
deriving DecidableEq, Repr

/-- Environment of a dispatcher invocation: whether the chat session was
initialized, what navigator.onLine reports, and how the remote call ends. -/
structure Env where
  chatInitialized : Bool
  onLine : Bool
  remote : RemoteOutcome
deriving DecidableEq, Repr

/-- The errors that can be raised inside the try block of processCommand. -/
inductive DispatchError
  | chatNotInitialized
  | networkOffline
  | remoteRejected
deriving DecidableEq, Repr

def emptyResponseMessage : String :=
  "I\x27m sorry, I couldn\x27t generate a response for that. Please try another question."

def offlineErrorMessage : String :=
  "It seems you\x27re offline. Please check your internet connection and try again."

def serviceErrorMessage : String :=
  "I\x27m sorry, an issue occurred with the AI service. Please try your request again in a moment."

/-- The try-block of processCommand up to the remote call: a missing chat
session throws, a false navigator.onLine throws network-offline, otherwise
the remote call resolves or rejects as the environment says. -/
def attemptRemote (env : Env) : Except DispatchError (Option String) :=
  if !env.chatInitialized then Except.error DispatchError.chatNotInitialized
  else if !env.onLine then Except.error DispatchError.networkOffline
  else match env.remote with
    | RemoteOutcome.resolved text => Except.ok text
    | RemoteOutcome.rejected => Except.error DispatchError.remoteRejected

/-- The catch-block classification: only the error whose message equals
network-offline gets the offline text, every other error the generic one. -/
def dispatchErrorMessage (e : DispatchError) : String :=
  match e with
  | DispatchError.networkOffline => offlineErrorMessage
  | _ => serviceErrorMessage

/-- The synchronous prefix of processCommand: append the user entry, enter
THINKING and show the thinking status, before anything can fail. -/
def preDispatch (command : String) (s : ModelState) : ModelState :=
  { s with
      transcript := appendTranscript ⟨Author.user, command⟩ s.transcript,
      appState := AppState.THINKING,
      statusText := "Thinking..." }

/-- The rest of processCommand after the user entry was appended: run the
guarded remote call, trim the reply, and speak the reply, the fixed
empty-response fallback, or the classified error message. -/
def processCommandResume (env : Env) (s : ModelState) : ModelState × List Effect :=
  match attemptRemote env with
  | Except.ok text =>
      match text.map jsTrim with
      | some assistantMessage =>
          if assistantMessage ≠ "" then
            speakAndDisplay assistantMessage Author.assistant s
          else
            speakAndDisplay emptyResponseMessage Author.assistant s
      | none => speakAndDisplay emptyResponseMessage Author.assistant s
  | Except.error e =>
      speakAndDisplay (dispatchErrorMessage e) Author.assistant s

/-- processCommand: the central command dispatcher. -/
def processCommand (env : Env) (command : String) (s : ModelState) :
    ModelState × List Effect :=
  processCommandResume env (preDispatch command s)

/-- The one assistant text produced by a dispatcher invocation in a given
environment. -/
def dispatchedReply (env : Env) : String :=
  match attemptRemote env with
  | Except.ok text =>
      match text.map jsTrim with
      | some assistantMessage =>
          if assistantMessage ≠ "" then assistantMessage else emptyResponseMessage
      | none => emptyResponseMessage
  | Except.error e => dispatchErrorMessage e

def listeningPromptMessage : String := "I\x27m listening. Please state your command."

def wakeWordReminderMessage : String :=
  "Please start your command with my name, \"" ++ ASSISTANT_NAME ++ "\"."

/-- What the result handler decides to do with a final transcript. -/
inductive ResultAction
  | dispatch (command : String)
  | guidance (message : String)
deriving DecidableEq, Repr

/-- The branching of handleResult: wake-word check on the lowercased and
trimmed utterance, then wake-word stripping and trimming of the remainder. -/
def handleResultAction (userMessage : String) : ResultAction :=
  if jsStartsWith (jsTrim (jsToLower userMessage)) wakeWord then
    if jsTrim (jsDrop (jsTrim userMessage) (jsLength wakeWord)) = "" then
      ResultAction.guidance listeningPromptMessage
    else
      ResultAction.dispatch (jsTrim (jsDrop (jsTrim userMessage) (jsLength wakeWord)))
  else
    ResultAction.guidance wakeWordReminderMessage

/-- handleResult: dispatch a valid wake-prefixed command, otherwise speak
the matching guidance message. -/
def handleResult (env : Env) (userMessage : String) (s : ModelState) :
    ModelState × List Effect :=
  match handleResultAction userMessage with
  | ResultAction.dispatch command => processCommand env command s
  | ResultAction.guidance message => speakAndDisplay message Author.assistant s

/-- handleEnd: reset to Idle only when the machine was in Listening. -/
def handleEnd (s : ModelState) : ModelState :=
  if s.appState = AppState.LISTENING then
    { s with appState := AppState.IDLE, statusText := idleStatusText }
  else s

def micDeniedMessage : String :=
  "Microphone access is not allowed. Please enable it in your browser settings and refresh the page."

/-- The switch of handleError: the spoken message per error code, none for
the two permission codes which escalate instead. -/
def recognitionErrorMessage (code : String) : Option String :=
  if code = "no-speech" then
    some "I didn\x27t hear anything. Could you please try again?"
  else if code = "not-allowed" ∨ code = "service-not-allowed" then
    none
  else if code = "audio-capture" then
    some "I\x27m having trouble with your microphone. Please make sure it\x27s connected and enabled."
  else if code = "network" then
    some "A network error occurred with the speech service. Please check your internet connection."
  else
    some ("An error occurred with speech recognition: " ++ code ++ ". Please try again.")

/-- handleError: leave LISTENING immediately, then either set the critical
error (permission codes) or speak the mapped message. -/
def handleError (code : String) (s : ModelState) : ModelState × List Effect :=
  let s1 := if s.appState = AppState.LISTENING then
    { s with appState := AppState.IDLE } else s
  match recognitionErrorMessage code with
  | none => ({ s1 with criticalError := some micDeniedMessage }, [])
  | some msg => speakAndDisplay msg Author.assistant s1

/-- isDisabled: true under a critical error or while THINKING or SPEAKING. -/
def isDisabled (s : ModelState) : Bool :=
  s.criticalError.isSome || s.appState == AppState.THINKING
    || s.appState == AppState.SPEAKING

/-- handleOrbClick: guarded by critical error and recognition availability;
from IDLE start listening, from LISTENING stop recognition. -/
def handleOrbClick (recognitionAvailable : Bool) (s : ModelState) :
    ModelState × List Effect :=
  if s.criticalError.isSome || !recognitionAvailable then (s, [])
  else if s.appState = AppState.IDLE then
    ({ s with appState := AppState.LISTENING, statusText := "Listening..." },
     [Effect.playStartSound, Effect.startRecognition])
  else if s.appState = AppState.LISTENING then
    (s, [Effect.stopRecognition])
  else (s, [])

/-- handleTextSubmit: trim the text input; bail out on an empty command or
while disabled, otherwise dispatch and clear the input. -/
def handleTextSubmit (env : Env) (s : ModelState) : ModelState × List Effect :=
  if jsTrim s.textInput == "" || isDisabled s then (s, [])
  else
    let r := processCommand env (jsTrim s.textInput) s
    ({ r.1 with textInput := "" }, r.2)

/-- The state right after mounting with no critical error. -/
def initialState : ModelState :=
  ⟨AppState.IDLE, idleStatusText, [], none, ""⟩

/-- An environment in which the remote call succeeds with the reply ok. -/
def env0 : Env := ⟨true, true, RemoteOutcome.resolved (some "ok")⟩

/-- A listening state with a pending text input and no critical error. -/
def listeningState : ModelState :=
  ⟨AppState.LISTENING, "Listening...", [], none, "hello"⟩

/-- A thinking state with a pending text input and no critical error. -/
def thinkingState : ModelState :=
  ⟨AppState.THINKING, "Thinking...", [], none, "hi"⟩

/-- Environment: the chat session was never initialized and the browser
reports offline. -/
def uninitOfflineEnv : Env := ⟨false, false, RemoteOutcome.resolved (some "ok")⟩

/-- Environment: initialized chat, browser offline. -/
def offlineEnv : Env := ⟨true, false, RemoteOutcome.resolved (some "ok")⟩

/-- Environment: initialized chat, online, remote resolves with a
whitespace-only reply. -/
def blankReplyEnv : Env := ⟨true, true, RemoteOutcome.resolved (some "   ")⟩

example : handleResultAction "bravio what time is it" =
    ResultAction.dispatch "what time is it" := by decide

example : handleResultAction "  Bravio,  hello " =
    ResultAction.dispatch ",  hello" := by decide

example :
    (processCommand env0 "hi" initialState).1.appState = AppState.SPEAKING := by decide

/-- Every dispatcher invocation resolves through speakAndDisplay with the
single reply text determined by the environment. -/
theorem processCommandResume_eq (env : Env) (s : ModelState) :
    processCommandResume env s =
      speakAndDisplay (dispatchedReply env) Author.assistant s := by
  unfold processCommandResume dispatchedReply
  cases hA : attemptRemote env with
  | ok text =>
      cases text with
      | none => rfl
      | some t =>
          simp only [Option.map_some]
          split
          all_goals first
          | rfl
          | (split <;> rfl)
  | error e => rfl

/-- C1: every recognized utterance whose trimmed, lowercased form starts
with the wake name, and whose remainder after stripping the wake name and
trimming is non-empty, makes handleResult invoke processCommand with
exactly that trimmed remainder. -/
theorem wake_prefixed_utterance_dispatches_remainder
    (env : Env) (s : ModelState) (m : String)
    (h1 : jsStartsWith (jsTrim (jsToLower m)) wakeWord = true)
    (h2 : jsTrim (jsDrop (jsTrim m) (jsLength wakeWord)) ≠ "") :
    handleResultAction m =
      ResultAction.dispatch (jsTrim (jsDrop (jsTrim m) (jsLength wakeWord)))
    ∧ handleResult env m s =
      processCommand env (jsTrim (jsDrop (jsTrim m) (jsLength wakeWord))) s := by
  have ha : handleResultAction m =
      ResultAction.dispatch (jsTrim (jsDrop (jsTrim m) (jsLength wakeWord))) := by
    unfold handleResultAction
    rw [if_pos h1, if_neg h2]
  exact ⟨ha, by unfold handleResult; rw [ha]⟩

/-- C1 witness: the utterance of the spec example dispatches the command
of the spec example. -/
theorem wake_prefixed_utterance_dispatches_remainder_witness :
    handleResultAction "bravio what time is it" =
      ResultAction.dispatch "what time is it"
    ∧ handleResult env0 "bravio what time is it" initialState =
      processCommand env0 "what time is it" initialState := by
  have h := wake_prefixed_utterance_dispatches_remainder env0 initialState
    "bravio what time is it" (by decide) (by decide)
  have e : jsTrim (jsDrop (jsTrim "bravio what time is it") (jsLength wakeWord)) =
      "what time is it" := by decide
  rw [e] at h
  exact h

/-- C2 counterexample: in LISTENING, a state other than Idle, submitting
the text input is not a no-op: the command is dispatched, the transcript
grows and the state changes. -/
theorem listening_text_submit_dispatches :
    listeningState.appState ≠ AppState.IDLE
    ∧ isDisabled listeningState = false
    ∧ handleTextSubmit env0 listeningState ≠ (listeningState, [])
    ∧ (handleTextSubmit env0 listeningState).1.transcript =
        [⟨Author.user, "hello"⟩, ⟨Author.assistant, "ok"⟩]
    ∧ (handleTextSubmit env0 listeningState).1.appState = AppState.SPEAKING := by
  decide

/-- C2 amended: while THINKING or SPEAKING, both the orb control and text
submission are no-ops; in LISTENING the orb control is the stop-listening
control, and text submission is not blocked by the handler. -/
theorem busy_state_blocks_orb_and_text
    (env : Env) (s : ModelState) (ra : Bool)
    (h : s.appState = AppState.THINKING ∨ s.appState = AppState.SPEAKING) :
    handleOrbClick ra s = (s, []) ∧ handleTextSubmit env s = (s, []) := by
  rcases h with h | h <;>
    simp [handleOrbClick, handleTextSubmit, isDisabled, h]

/-- C2 amended witness, in the THINKING state. -/
theorem busy_state_blocks_orb_and_text_witness :
    handleOrbClick true thinkingState = (thinkingState, [])
    ∧ handleTextSubmit env0 thinkingState = (thinkingState, []) :=
  busy_state_blocks_orb_and_text env0 thinkingState true (Or.inl rfl)

/-- C3 counterexample: in LISTENING, a malformed final transcript (here
one without the wake name) leaves the machine in SPEAKING, not in IDLE. -/
theorem malformed_result_enters_speaking_not_idle :
    listeningState.appState = AppState.LISTENING
    ∧ handleResultAction "hello" = ResultAction.guidance wakeWordReminderMessage
    ∧ (handleResult env0 "hello" listeningState).1.appState = AppState.SPEAKING
    ∧ (handleResult env0 "hello" listeningState).1.appState ≠ AppState.IDLE := by
  decide

/-- C3 amended: from Listening, an empty or malformed final transcript
dispatches no command; guidance is spoken, the machine enters Speaking,
and it returns to Idle when the guidance utterance completes. -/
theorem malformed_result_speaks_guidance_then_idle
    (env : Env) (s : ModelState) (m : String)
    (_hs : s.appState = AppState.LISTENING)
    (hmal : jsStartsWith (jsTrim (jsToLower m)) wakeWord = false
        ∨ jsTrim (jsDrop (jsTrim m) (jsLength wakeWord)) = "") :
    (∀ c, handleResultAction m ≠ ResultAction.dispatch c)
    ∧ (handleResult env m s).1.appState = AppState.SPEAKING
    ∧ (utteranceOnEnd (handleResult env m s).1).appState = AppState.IDLE
    ∧ (utteranceOnEnd (handleResult env m s).1).statusText = idleStatusText := by
  have hg : ∃ g, handleResultAction m = ResultAction.guidance g := by
    unfold handleResultAction
    rcases hmal with h | h
    · rw [if_neg (by simp [h])]
      exact ⟨_, rfl⟩
    · by_cases h1 : jsStartsWith (jsTrim (jsToLower m)) wakeWord = true
      · rw [if_pos h1, if_pos h]
        exact ⟨_, rfl⟩
      · rw [if_neg h1]
        exact ⟨_, rfl⟩
  obtain ⟨g, hg⟩ := hg
  have he : handleResult env m s = speakAndDisplay g Author.assistant s := by
    unfold handleResult
    rw [hg]
  refine ⟨?_, ?_, ?_, ?_⟩
  · intro c
    rw [hg]
    simp
  · rw [he]; rfl
  · rw [he]; rfl
  · rw [he]; rfl

/-- C3 amended witness, at the empty final transcript. -/
theorem malformed_result_speaks_guidance_then_idle_witness :
    (∀ c, handleResultAction "" ≠ ResultAction.dispatch c)
    ∧ (handleResult env0 "" listeningState).1.appState = AppState.SPEAKING
    ∧ (utteranceOnEnd (handleResult env0 "" listeningState).1).appState =
        AppState.IDLE
    ∧ (utteranceOnEnd (handleResult env0 "" listeningState).1).statusText =
        idleStatusText :=
  malformed_result_speaks_guidance_then_idle env0 listeningState ""
    rfl (Or.inl (by decide))

/-- C4: an invalid final result produces guidance, never a dispatch: a
missing wake name yields the wake-name reminder, and a wake name with an
empty remainder (in particular the wake name alone) yields the listening
prompt. -/
theorem invalid_result_speaks_guidance
    (env : Env) (s : ModelState) (m : String) :
    (jsStartsWith (jsTrim (jsToLower m)) wakeWord = false →
        handleResultAction m = ResultAction.guidance wakeWordReminderMessage
        ∧ handleResult env m s =
            speakAndDisplay wakeWordReminderMessage Author.assistant s)
    ∧ (jsStartsWith (jsTrim (jsToLower m)) wakeWord = true →
        jsTrim (jsDrop (jsTrim m) (jsLength wakeWord)) = "" →
        handleResultAction m = ResultAction.guidance listeningPromptMessage
        ∧ handleResult env m s =
            speakAndDisplay listeningPromptMessage Author.assistant s) := by
  constructor
  · intro h
    have ha : handleResultAction m = ResultAction.guidance wakeWordReminderMessage := by
      unfold handleResultAction
      rw [if_neg (by simp [h])]
    exact ⟨ha, by unfold handleResult; rw [ha]⟩
  · intro h1 h2
    have ha : handleResultAction m = ResultAction.guidance listeningPromptMessage := by
      unfold handleResultAction
      rw [if_pos h1, if_pos h2]
    exact ⟨ha, by unfold handleResult; rw [ha]⟩

/-- C4 witness: a wake-less utterance gets the reminder; the bare wake
name gets the listening prompt. -/
theorem invalid_result_speaks_guidance_witness :
    (handleResultAction "what time is it" =
        ResultAction.guidance wakeWordReminderMessage
      ∧ handleResult env0 "what time is it" initialState =
          speakAndDisplay wakeWordReminderMessage Author.assistant initialState)
    ∧ (handleResultAction "Bravio" = ResultAction.guidance listeningPromptMessage
      ∧ handleResult env0 "Bravio" initialState =
          speakAndDisplay listeningPromptMessage Author.assistant initialState) :=
  ⟨(invalid_result_speaks_guidance env0 initialState "what time is it").1 (by decide),
   (invalid_result_speaks_guidance env0 initialState "Bravio").2 (by decide) (by decide)⟩

/-- C5 counterexample: with the chat session uninitialized and the browser
reporting offline, the dispatcher speaks the generic service message, not
the offline-specific one. -/
theorem offline_failure_can_yield_generic_message :
    uninitOfflineEnv.onLine = false
    ∧ (processCommand uninitOfflineEnv "hello" initialState).2 =
        [Effect.synthCancel, Effect.speak serviceErrorMessage]
    ∧ serviceErrorMessage ≠ offlineErrorMessage := by
  decide

/-- C5 amended: every failure resolves inside the dispatcher to exactly
one spoken message and the SPEAKING state; with the chat initialized, a
failure while offline yields the offline message and a rejected remote
call the generic message; with the chat uninitialized the generic message
is spoken even while the browser reports offline. -/
theorem dispatcher_failure_resolves_to_speech
    (env : Env) (c : String) (s : ModelState)
    (hfail : env.chatInitialized = false ∨ env.onLine = false
        ∨ env.remote = RemoteOutcome.rejected) :
    (processCommand env c s).1.appState = AppState.SPEAKING
    ∧ (∃ e, attemptRemote env = Except.error e
        ∧ (processCommand env c s).2 =
            [Effect.synthCancel, Effect.speak (dispatchErrorMessage e)])
    ∧ (env.chatInitialized = true → env.onLine = false →
        (processCommand env c s).2 =
          [Effect.synthCancel, Effect.speak offlineErrorMessage])
    ∧ (env.chatInitialized = true → env.onLine = true →
        (processCommand env c s).2 =
          [Effect.synthCancel, Effect.speak serviceErrorMessage])
    ∧ (env.chatInitialized = false →
        (processCommand env c s).2 =
          [Effect.synthCancel, Effect.speak serviceErrorMessage]) := by
  obtain ⟨ci, ol, r⟩ := env
  cases ci <;> cases ol <;> cases r <;>
    simp_all [processCommand, processCommandResume, preDispatch, attemptRemote,
      dispatchErrorMessage, speakAndDisplay]

/-- C5 amended witness: an offline failure with an initialized chat. -/
theorem dispatcher_failure_resolves_to_speech_witness :
    (processCommand offlineEnv "hi" initialState).1.appState = AppState.SPEAKING
    ∧ (processCommand offlineEnv "hi" initialState).2 =
        [Effect.synthCancel, Effect.speak offlineErrorMessage] := by
  have h := dispatcher_failure_resolves_to_speech offlineEnv "hi" initialState
    (Or.inr (Or.inl rfl))
  exact ⟨h.1, h.2.2.1 rfl rfl⟩

/-- C6: a resolved reply whose trimmed text is empty yields the fixed
fallback message as both the appended assistant transcript entry and the
spoken text, and no transcript entry with empty text is appended. -/
theorem empty_reply_substitutes_fallback
    (env : Env) (c : String) (s : ModelState) (t : String)
    (hc : env.chatInitialized = true) (ho : env.onLine = true)
    (hr : env.remote = RemoteOutcome.resolved (some t))
    (ht : jsTrim t = "") (hcmd : c ≠ "") :
    (processCommand env c s).1.transcript =
        appendTranscript ⟨Author.assistant, emptyResponseMessage⟩
          (appendTranscript ⟨Author.user, c⟩ s.transcript)
    ∧ (processCommand env c s).2 =
        [Effect.synthCancel, Effect.speak emptyResponseMessage]
    ∧ (∀ item ∈ (processCommand env c s).1.transcript,
          item ∈ s.transcript ∨ item.text ≠ "") := by
  have hA : attemptRemote env = Except.ok (some t) := by
    simp [attemptRemote, hc, ho, hr]
  have hd : dispatchedReply env = emptyResponseMessage := by
    simp [dispatchedReply, hA, ht]
  have he : processCommand env c s =
      speakAndDisplay emptyResponseMessage Author.assistant (preDispatch c s) := by
    rw [processCommand, processCommandResume_eq, hd]
  rw [he]
  refine ⟨rfl, rfl, ?_⟩
  intro item him
  simp [speakAndDisplay, preDispatch, appendTranscript] at him
  rcases him with him | him | him
  · exact Or.inl him
  · right
    rw [him]
    exact hcmd
  · right
    rw [him]
    decide

/-- C6 witness: a whitespace-only reply to a concrete command. -/
theorem empty_reply_substitutes_fallback_witness :
    (processCommand blankReplyEnv "hi" initialState).1.transcript =
        appendTranscript ⟨Author.assistant, emptyResponseMessage⟩
          (appendTranscript ⟨Author.user, "hi"⟩ initialState.transcript)
    ∧ (processCommand blankReplyEnv "hi" initialState).2 =
        [Effect.synthCancel, Effect.speak emptyResponseMessage] := by
  have h := empty_reply_substitutes_fallback blankReplyEnv "hi" initialState "   "
    rfl rfl rfl (by decide) (by decide)
  exact ⟨h.1, h.2.1⟩

/-- C7: the transcript is append-only: an append adds exactly one entry at
the end and preserves every prior entry in place, and speakAndDisplay and
processCommand update the transcript only through such appends. -/
theorem transcript_append_only
    (item : TranscriptItem) (ts : List TranscriptItem) (text : String)
    (author : Author) (s : ModelState) (env : Env) (c : String) :
    (appendTranscript item ts).length = ts.length + 1
    ∧ (appendTranscript item ts).take ts.length = ts
    ∧ (speakAndDisplay text author s).1.transcript =
        appendTranscript ⟨author, text⟩ s.transcript
    ∧ (processCommand env c s).1.transcript =
        appendTranscript ⟨Author.assistant, dispatchedReply env⟩
          (appendTranscript ⟨Author.user, c⟩ s.transcript) := by
  refine ⟨by simp [appendTranscript], ?_, rfl, ?_⟩
  · simp [appendTranscript, List.take_left]
  · rw [processCommand, processCommandResume_eq]
    rfl

/-- C8: recognition errors: the two permission codes set the critical
error and speak nothing; every other code speaks its fixed mapped
message, appends it to the transcript, and leaves the critical error
unchanged. -/
theorem recognition_error_dispatch (code : String) (s : ModelState) :
    ((code = "not-allowed" ∨ code = "service-not-allowed") →
        (handleError code s).1.criticalError = some micDeniedMessage
        ∧ (handleError code s).2 = []
        ∧ (handleError code s).1.transcript = s.transcript)
    ∧ (code ≠ "not-allowed" → code ≠ "service-not-allowed" →
        ∃ msg, recognitionErrorMessage code = some msg
        ∧ (handleError code s).2 = [Effect.synthCancel, Effect.speak msg]
        ∧ (handleError code s).1.transcript =
            appendTranscript ⟨Author.assistant, msg⟩ s.transcript
        ∧ (handleError code s).1.criticalError = s.criticalError) := by
  constructor
  · intro h
    have hnone : recognitionErrorMessage code = none := by
      rcases h with h | h <;> rw [h] <;> rfl
    unfold handleError
    rw [hnone]
    refine ⟨rfl, rfl, ?_⟩
    split <;> rfl
  · intro h1 h2
    have hsome : ∃ msg, recognitionErrorMessage code = some msg := by
      unfold recognitionErrorMessage
      split
      · exact ⟨_, rfl⟩
      · rw [if_neg (by tauto)]
        split
        · exact ⟨_, rfl⟩
        · split
          · exact ⟨_, rfl⟩
          · exact ⟨_, rfl⟩
    obtain ⟨msg, hmsg⟩ := hsome
    refine ⟨msg, hmsg, ?_⟩
    unfold handleError
    rw [hmsg]
    refine ⟨rfl, ?_, ?_⟩
    · show appendTranscript ⟨Author.assistant, msg⟩
        (if s.appState = AppState.LISTENING then
          { s with appState := AppState.IDLE } else s).transcript =
        appendTranscript ⟨Author.assistant, msg⟩ s.transcript
      split <;> rfl
    · show (if s.appState = AppState.LISTENING then
          { s with appState := AppState.IDLE } else s).criticalError =
        s.criticalError
      split <;> rfl

/-- C8 witness: the permission code and a recoverable code. -/
theorem recognition_error_dispatch_witness :
    ((handleError "not-allowed" initialState).1.criticalError =
        some micDeniedMessage
      ∧ (handleError "not-allowed" initialState).2 = [])
    ∧ (handleError "no-speech" initialState).2 =
        [Effect.synthCancel,
         Effect.speak "I didn\x27t hear anything. Could you please try again?"] := by
  have h1 := (recognition_error_dispatch "not-allowed" initialState).1 (Or.inl rfl)
  have h2 := (recognition_error_dispatch "no-speech" initialState).2
    (by decide) (by decide)
  obtain ⟨msg, hmsg, heff, -, -⟩ := h2
  have hv : recognitionErrorMessage "no-speech" =
      some "I didn\x27t hear anything. Could you please try again?" := by decide
  rw [hv] at hmsg
  cases hmsg
  exact ⟨⟨h1.1, h1.2.1⟩, heff⟩

/-- C9: the end handler resets to Idle, with the idle status text, exactly
when the machine is in Listening, and is the identity otherwise. -/
theorem end_event_resets_only_listening (s : ModelState) :
    (s.appState = AppState.LISTENING →
        handleEnd s =
          { s with appState := AppState.IDLE, statusText := idleStatusText })
    ∧ (s.appState ≠ AppState.LISTENING → handleEnd s = s) := by
  constructor <;> intro h <;> simp [handleEnd, h]

/-- C9 witness: from Listening and from Idle. -/
theorem end_event_resets_only_listening_witness :
    handleEnd listeningState =
      { listeningState with appState := AppState.IDLE, statusText := idleStatusText }
    ∧ handleEnd initialState = initialState :=
  ⟨(end_event_resets_only_listening listeningState).1 rfl,
   (end_event_resets_only_listening initialState).2 (by decide)⟩

/-- C10: processCommand appends the user entry and enters Thinking before
any failure condition is checked, and in every environment, successful or
failing, the final transcript holds the user entry exactly once more than
before. -/
theorem user_entry_appended_before_failure_checks
    (env : Env) (c : String) (s : ModelState) :
    processCommand env c s = processCommandResume env (preDispatch c s)
    ∧ (preDispatch c s).transcript = appendTranscript ⟨Author.user, c⟩ s.transcript
    ∧ (preDispatch c s).appState = AppState.THINKING
    ∧ (preDispatch c s).statusText = "Thinking..."
    ∧ (processCommand env c s).1.transcript =
        s.transcript ++ [⟨Author.user, c⟩, ⟨Author.assistant, dispatchedReply env⟩]
    ∧ (processCommand env c s).1.transcript.count ⟨Author.user, c⟩
        = s.transcript.count ⟨Author.user, c⟩ + 1 := by
  have ht : (processCommand env c s).1.transcript =
      s.transcript ++ [⟨Author.user, c⟩, ⟨Author.assistant, dispatchedReply env⟩] := by
    rw [processCommand, processCommandResume_eq]
    show appendTranscript ⟨Author.assistant, dispatchedReply env⟩
      (appendTranscript ⟨Author.user, c⟩ s.transcript) = _
    simp [appendTranscript]
  refine ⟨rfl, rfl, rfl, rfl, ht, ?_⟩
  rw [ht]
  simp [List.count_append, List.count_cons]

end Bravio
